import Mathlib

/-!
Shallow embedding of the linkerd2-proxy identity subsystem
(src/identity/mod.rs) and the TLS identity-status model
(src/transport/tls/mod.rs).

External crates (ring, rustls PEM parsing and chain validation, webpki
certificate parsing, the dns name validator) are modelled as explicit
function parameters of the operations that call them, so every theorem
about an operation is parametric in the behaviour of its external
collaborators; witnesses instantiate them with concrete functions.
-/

namespace Identity

/-- Byte sequences (Rust Vec of u8), modelled as lists of naturals. -/
abbrev Bytes := List Nat

/-- Model of rustls Certificate: a DER-encoded certificate, a byte vector. -/
structure Certificate where
  der : Bytes
deriving DecidableEq

/-- Model of the rustls SignatureScheme enum (the variants relevant here). -/
inductive SignatureScheme where
  | ECDSA_NISTP256_SHA256
  | RSA_PKCS1_SHA256
  | RSA_PSS_SHA256
  | ED25519
deriving DecidableEq

/-- Model of the rustls SignatureAlgorithm enum. -/
inductive SignatureAlgorithm where
  | ECDSA
  | RSA
deriving DecidableEq

/-- Model of rustls TLSError: the General variant carries a message string;
other validator diagnostics are represented by an opaque code. -/
inductive TLSError where
  | General (msg : String)
  | WebPKIError (code : Nat)
deriving DecidableEq

/-- Model of the external dns::Name type: a validated DNS name string. -/
structure DnsName where
  toStr : String
deriving DecidableEq

/-- Model of dns::InvalidName, a unit error struct. -/
structure InvalidName where
deriving DecidableEq

/-- Model of the external ring EcdsaKeyPair, opaque but distinguishable. -/
structure EcdsaKeyPair where
  id : Nat
deriving DecidableEq

/-- The supported rustls signature scheme (SIGNATURE_ALG_RUSTLS_SCHEME). -/
def SIGNATURE_ALG_RUSTLS_SCHEME : SignatureScheme :=
  SignatureScheme.ECDSA_NISTP256_SHA256

/-- The supported rustls signature algorithm (SIGNATURE_ALG_RUSTLS_ALGORITHM). -/
def SIGNATURE_ALG_RUSTLS_ALGORITHM : SignatureAlgorithm :=
  SignatureAlgorithm.ECDSA

/-- CSR: a DER-encoded X.509 certificate signing request. -/
structure CSR where
  der : Bytes
deriving DecidableEq

/-- CSR::from_der: fails on empty input, otherwise wraps the bytes. -/
def CSR.from_der (der : Bytes) : Option CSR :=
  if der.isEmpty then
    none
  else
    some (CSR.mk der)

/-- CSR::to_vec: returns a copy of the wrapped bytes. -/
def CSR.to_vec (c : CSR) : Bytes :=
  c.der

/-- Name: an endpoint identity wrapping a validated dns::Name. -/
structure Name where
  dnsName : DnsName
deriving DecidableEq

/-- Key: a private key wrapping a ring EcdsaKeyPair. -/
structure Key where
  pair : EcdsaKeyPair
deriving DecidableEq

/-- SigningKey: the rustls signing-key adapter around the shared key pair. -/
structure SigningKey where
  pair : EcdsaKeyPair
deriving DecidableEq

/-- Signer: the per-handshake signer around the shared key pair. -/
structure Signer where
  pair : EcdsaKeyPair
deriving DecidableEq

/-- SigningKey::choose_scheme: yields a signer exactly when the single
supported scheme is among those offered. -/
def SigningKey.choose_scheme (k : SigningKey) (offered : List SignatureScheme) :
    Option Signer :=
  if offered.contains SIGNATURE_ALG_RUSTLS_SCHEME then
    some (Signer.mk k.pair)
  else
    none

/-- SigningKey::algorithm. -/
def SigningKey.algorithm (_k : SigningKey) : SignatureAlgorithm :=
  SIGNATURE_ALG_RUSTLS_ALGORITHM

/-- Model of the external ring ECDSA signing primitive
(EcdsaKeyPair::sign with a fresh SystemRandom): some signature bytes on
success, none on the unit ring error (Unspecified carries no data). -/
abbrev RingSign := EcdsaKeyPair → Bytes → Option Bytes

/-- Signer::sign: invoke the ring primitive; on failure discard the (unit)
cause and return the fixed generic error General with message
Signing Failed; on success return the signature bytes. -/
def Signer.sign (ring_sign : RingSign) (s : Signer) (message : Bytes) :
    Except TLSError Bytes :=
  match ring_sign s.pair message with
  | some signature => Except.ok signature
  | none => Except.error (TLSError.General "Signing Failed")

/-- Signer::get_scheme. -/
def Signer.get_scheme (_s : Signer) : SignatureScheme :=
  SIGNATURE_ALG_RUSTLS_SCHEME

/-- Name::from_sni_hostname: rejects hostnames with a trailing separator
(SNI hostnames are implicitly absolute), otherwise delegates to the
external dns::Name::try_from validator, passed as a parameter. Bytes of
the hostname are modelled as (ASCII) characters. -/
def Name.from_sni_hostname (try_from : List Char → Except InvalidName DnsName)
    (hostname : List Char) : Except InvalidName Name :=
  if hostname.getLast? = some '.' then
    Except.error InvalidName.mk
  else
    (try_from hostname).map fun n => Name.mk n

/-- The AsRef str projection of Name, delegating to the wrapped dns::Name. -/
def Name.as_ref (n : Name) : String :=
  n.dnsName.toStr

/-- One hostname label: nonempty, alphanumerics and hyphens only, with no
leading or trailing hyphen. -/
def validLabel (l : List Char) : Bool :=
  !l.isEmpty && l.all (fun c => c.isAlphanum || c == '-') &&
    !(l.head? == some '-') && !(l.getLast? == some '-')

/-- Syntactic hostname validity: nonempty, and every dot-separated label
is a valid label. -/
def isValidHostname (hostname : List Char) : Bool :=
  !hostname.isEmpty && (hostname.splitOn '.').all validLabel

/-- Modelled from the spec: the external DNS-name validator
(dns::Name::try_from), whose implementation is not under src/. Per the
spec it accepts syntactically valid hostnames, rejects others, and the
resulting name preserves the input string, so the string projection of a
constructed Name equals the input hostname. -/
def dns_Name_try_from (hostname : List Char) : Except InvalidName DnsName :=
  if isValidHostname hostname then
    Except.ok (DnsName.mk (String.mk hostname))
  else
    Except.error InvalidName.mk

/-- Model of rustls RootCertStore: the accumulated root certificates. -/
structure RootCertStore where
  roots : List Certificate
deriving DecidableEq

/-- TrustAnchors: an immutable root-certificate set. -/
structure TrustAnchors where
  store : RootCertStore
deriving DecidableEq

/-- Model of the external rustls RootCertStore::add_pem_file on an
in-memory cursor: none models the Err case of the parser; otherwise it
yields the successfully parsed anchors (added) and the count of skipped
unparsable entries. -/
abbrev AddPemFile := String → Option (List Certificate × Nat)

/-- TrustAnchors::from_pem: parse the PEM bundle with the external parser;
skipped entries are only logged; fail (none) when the parser fails or when
zero anchors were added, else return the anchor set. -/
def TrustAnchors.from_pem (add_pem_file : AddPemFile) (s : String) :
    Option TrustAnchors :=
  match add_pem_file s with
  | none => none
  | some (added, _skipped) =>
    if added.length = 0 then
      none
    else
      some (TrustAnchors.mk (RootCertStore.mk added))

/-- Timestamps (std::time::SystemTime), modelled as naturals. -/
abbrev SystemTime := Nat

/-- Crt: an unvalidated identity, a name-tagged chain with an expiry. -/
structure Crt where
  name : Name
  expiry : SystemTime
  chain : List Certificate
deriving DecidableEq

/-- Crt::new: the chain is the leaf followed by the intermediates in their
given order. -/
def Crt.new (name : Name) (leaf : Bytes) (intermediates : List Bytes)
    (expiry : SystemTime) : Crt :=
  { name := name
    expiry := expiry
    chain := Certificate.mk leaf :: intermediates.map Certificate.mk }

/-- Model of rustls sign::CertifiedKey: the certificate chain together
with the boxed signing key. -/
structure CertifiedKey where
  cert : List Certificate
  key : SigningKey
deriving DecidableEq

/-- rustls sign::CertifiedKey::new. -/
def CertifiedKey.new (chain : List Certificate) (key : SigningKey) :
    CertifiedKey :=
  { cert := chain, key := key }

/-- CrtKey: a certified identity bound to its signing key. -/
structure CrtKey where
  name : Name
  expiry : SystemTime
  key : CertifiedKey
deriving DecidableEq

/-- InvalidCrt: wraps the underlying validator diagnostic. -/
structure InvalidCrt where
  err : TLSError
deriving DecidableEq

/-- Model of the external rustls chain validator
(WebPKIVerifier::verify_server_cert): given the root store, the
presented chain, the DNS name and the OCSP response, it either accepts or
returns a TLSError diagnostic. -/
abbrev ServerCertVerifier :=
  RootCertStore → List Certificate → DnsName → Bytes → Except TLSError Unit

/-- The empty OCSP response passed by certify (NO_OCSP). -/
def NO_OCSP : Bytes := []

/-- TrustAnchors::certify: validate the chain against the anchor set for
the contained name via the external validator; on failure wrap the
diagnostic in InvalidCrt; on success bind the chain to the key via the
signing adapter, keeping the name and expiry of the Crt. -/
def TrustAnchors.certify (verify_server_cert : ServerCertVerifier)
    (ta : TrustAnchors) (key : Key) (crt : Crt) : Except InvalidCrt CrtKey :=
  match verify_server_cert ta.store crt.chain crt.name.dnsName NO_OCSP with
  | Except.error e => Except.error (InvalidCrt.mk e)
  | Except.ok _ =>
    let k := SigningKey.mk key.pair
    Except.ok
      { name := crt.name
        expiry := crt.expiry
        key := CertifiedKey.new crt.chain k }

/-- CrtKey::resolve_ : the shared scheme-gated return used by both
resolver roles. -/
def CrtKey.resolve_ (ck : CrtKey) (sigschemes : List SignatureScheme) :
    Option CertifiedKey :=
  if !(sigschemes.contains SIGNATURE_ALG_RUSTLS_SCHEME) then
    none
  else
    some ck.key

/-- The ResolvesClientCert resolve impl for CrtKey: the acceptable-issuer
list is deliberately ignored. -/
def CrtKey.resolve_client (ck : CrtKey) (_acceptable_issuers : List Bytes)
    (sigschemes : List SignatureScheme) : Option CertifiedKey :=
  ck.resolve_ sigschemes

/-- The ResolvesClientCert has_certs impl for CrtKey. -/
def CrtKey.has_certs (_ck : CrtKey) : Bool :=
  true

/-- Model of a parsed webpki end-entity certificate. -/
structure EndEntityCert where
  der : Bytes
deriving DecidableEq

/-- Model of webpki::Error (the variants relevant here). -/
inductive WebpkiError where
  | BadDER
  | CertNotValidForName
  | other (code : Nat)
deriving DecidableEq

/-- Model of the external webpki operations used by the server-role
resolver: parsing an end-entity certificate from DER input, and checking
that a parsed certificate is valid for a DNS name. -/
structure Webpki where
  from_input : Bytes → Except WebpkiError EndEntityCert
  verify_is_valid_for_dns_name : EndEntityCert → DnsName → Except WebpkiError Unit

/-- The DER bytes of the first chain entry of a certified key, with the
empty byte string substituted when the chain is empty (an empty input
will fail to parse). -/
def CrtKey.leaf_der (ck : CrtKey) : Bytes :=
  ((ck.key.cert.head?).map Certificate.der).getD []

/-- The ResolvesServerCert resolve impl for CrtKey: no SNI means no
certificate; with an SNI name, re-check that the stored leaf certificate
is valid for that exact name via webpki, treating any error as no
certificate, and only then fall through to the shared scheme gate. -/
def CrtKey.resolve_server (w : Webpki) (ck : CrtKey)
    (server_name : Option DnsName) (sigschemes : List SignatureScheme) :
    Option CertifiedKey :=
  match server_name with
  | none => none
  | some server_name =>
    match (w.from_input ck.leaf_der).bind
        (fun cert => w.verify_is_valid_for_dns_name cert server_name) with
    | Except.error _ => none
    | Except.ok _ => ck.resolve_ sigschemes

end Identity

namespace Tls

/-- ReasonForNoPeerIdentity, from src/transport/tls/mod.rs. -/
inductive ReasonForNoPeerIdentity where
  | Loopback
  | NoAuthorityInHttpRequest
  | NotHttp
  | NotProvidedByServiceDiscovery
  | NotProvidedByClient
deriving DecidableEq

/-- ReasonForNoIdentity, from src/transport/tls/mod.rs. -/
inductive ReasonForNoIdentity where
  | Disabled
  | NoPeerIdentity (r : ReasonForNoPeerIdentity)
deriving DecidableEq

/-- The Display impl for ReasonForNoPeerIdentity. -/
def ReasonForNoPeerIdentity.display : ReasonForNoPeerIdentity → String
  | ReasonForNoPeerIdentity.Loopback => "loopback"
  | ReasonForNoPeerIdentity.NoAuthorityInHttpRequest =>
    "no_authority_in_http_request"
  | ReasonForNoPeerIdentity.NotHttp => "not_http"
  | ReasonForNoPeerIdentity.NotProvidedByServiceDiscovery =>
    "not_provided_by_service_discovery"
  | ReasonForNoPeerIdentity.NotProvidedByClient => "not_provided_by_client"

/-- The Display impl for ReasonForNoIdentity: Disabled renders to the
token disabled, NoPeerIdentity delegates to the wrapped reason. -/
def ReasonForNoIdentity.display : ReasonForNoIdentity → String
  | ReasonForNoIdentity.Disabled => "disabled"
  | ReasonForNoIdentity.NoPeerIdentity r => r.display

end Tls

namespace Identity

/-- Fixture: a concrete identity name used by witnesses. -/
def nameW : Name := Name.mk (DnsName.mk "svc.example")

/-- Fixture: a concrete private key used by witnesses. -/
def keyW : Key := Key.mk (EcdsaKeyPair.mk 0)

/-- Fixture: a concrete leaf certificate used by witnesses. -/
def certW : Certificate := Certificate.mk [48, 1]

/-- Fixture: a certified key whose chain holds the one leaf certificate. -/
def ckW : CrtKey :=
  CrtKey.mk nameW 1000 (CertifiedKey.new [certW] (SigningKey.mk (EcdsaKeyPair.mk 0)))

/-- Fixture: a certified key with an empty chain. -/
def ckEmptyW : CrtKey :=
  CrtKey.mk nameW 1000 (CertifiedKey.new [] (SigningKey.mk (EcdsaKeyPair.mk 0)))

/-- Fixture: a concrete webpki model: parsing fails exactly on empty
input, and a parsed certificate is valid exactly for svc.example. -/
def webpkiW : Webpki :=
  Webpki.mk
    (fun b => if b.isEmpty then Except.error WebpkiError.BadDER else Except.ok (EndEntityCert.mk b))
    (fun _ n =>
      if n = DnsName.mk "svc.example" then Except.ok ()
      else Except.error WebpkiError.CertNotValidForName)

/-- Claim C8: CSR::from_der succeeds on every non-empty byte sequence and
to_vec on the result returns exactly the input bytes, while from_der of
the empty sequence fails. -/
theorem csr_from_der_roundtrip :
    (∀ b : Bytes, b ≠ [] →
      CSR.from_der b = some (CSR.mk b) ∧ CSR.to_vec (CSR.mk b) = b) ∧
    CSR.from_der [] = none := by
  constructor
  · intro b hb
    constructor
    · simp [CSR.from_der, hb]
    · rfl
  · rfl

/-- Witness for C8 at the concrete byte sequence 3, 1, 4. -/
theorem csr_from_der_roundtrip_witness :
    CSR.from_der [3, 1, 4] = some (CSR.mk [3, 1, 4]) ∧
      CSR.to_vec (CSR.mk [3, 1, 4]) = [3, 1, 4] :=
  csr_from_der_roundtrip.1 [3, 1, 4] (by decide)

/-- Claim C10: Crt::new builds a chain whose first element is the leaf
followed by the intermediates in order, so the chain length is the number
of intermediates plus one and is always at least one. -/
theorem crt_new_chain_spec (name : Name) (leaf : Bytes)
    (intermediates : List Bytes) (expiry : SystemTime) :
    (Crt.new name leaf intermediates expiry).chain =
        Certificate.mk leaf :: intermediates.map Certificate.mk ∧
      (Crt.new name leaf intermediates expiry).chain.head? =
        some (Certificate.mk leaf) ∧
      (Crt.new name leaf intermediates expiry).chain.length =
        intermediates.length + 1 ∧
      1 ≤ (Crt.new name leaf intermediates expiry).chain.length := by
  refine ⟨rfl, rfl, by simp [Crt.new], by simp [Crt.new]⟩

/-- Claim C5: Signer::sign maps every failure of the underlying signing
primitive to the one fixed generic error General with message Signing
Failed, a value independent of the primitive and of the message, and on
success returns exactly the signature bytes the primitive produced. -/
theorem signer_sign_spec (ring_sign : RingSign) (s : Signer) (message : Bytes) :
    (ring_sign s.pair message = none →
      Signer.sign ring_sign s message =
        Except.error (TLSError.General "Signing Failed")) ∧
    (∀ sig, ring_sign s.pair message = some sig →
      Signer.sign ring_sign s message = Except.ok sig) := by
  constructor
  · intro h
    simp [Signer.sign, h]
  · intro sig h
    simp [Signer.sign, h]

/-- Witness for C5: a primitive that always fails yields the fixed generic
error, and a primitive that echoes the message yields its bytes. -/
theorem signer_sign_spec_witness :
    Signer.sign (fun _ _ => none) (Signer.mk (EcdsaKeyPair.mk 0)) [5] =
        Except.error (TLSError.General "Signing Failed") ∧
      Signer.sign (fun _ m => some m) (Signer.mk (EcdsaKeyPair.mk 0)) [5] =
        Except.ok [5] :=
  ⟨(signer_sign_spec (fun _ _ => none) (Signer.mk (EcdsaKeyPair.mk 0)) [5]).1 rfl,
   (signer_sign_spec (fun _ m => some m) (Signer.mk (EcdsaKeyPair.mk 0)) [5]).2 [5] rfl⟩

/-- Claim C9: every reason variant renders to its documented fixed
lowercase token, and NoPeerIdentity renders identically to the wrapped
reason. -/
theorem reason_display_tokens :
    Tls.ReasonForNoIdentity.display Tls.ReasonForNoIdentity.Disabled = "disabled" ∧
    Tls.ReasonForNoPeerIdentity.display Tls.ReasonForNoPeerIdentity.Loopback = "loopback" ∧
    Tls.ReasonForNoPeerIdentity.display Tls.ReasonForNoPeerIdentity.NoAuthorityInHttpRequest =
      "no_authority_in_http_request" ∧
    Tls.ReasonForNoPeerIdentity.display Tls.ReasonForNoPeerIdentity.NotHttp = "not_http" ∧
    Tls.ReasonForNoPeerIdentity.display Tls.ReasonForNoPeerIdentity.NotProvidedByServiceDiscovery =
      "not_provided_by_service_discovery" ∧
    Tls.ReasonForNoPeerIdentity.display Tls.ReasonForNoPeerIdentity.NotProvidedByClient =
      "not_provided_by_client" ∧
    ∀ r, Tls.ReasonForNoIdentity.display (Tls.ReasonForNoIdentity.NoPeerIdentity r) =
      Tls.ReasonForNoPeerIdentity.display r := by
  refine ⟨rfl, rfl, rfl, rfl, rfl, rfl, fun r => rfl⟩

end Identity

namespace Identity

/-- Claim C1: certify returns the wrapped validator diagnostic exactly
when chain validation of the chain of the Crt against the anchor set for
its name fails, and on success returns a CrtKey keeping the name and
expiry of the Crt whose certified chain is exactly the chain of the Crt
bound to the given key via the signing adapter. -/
theorem certify_spec (v : ServerCertVerifier) (ta : TrustAnchors) (key : Key)
    (crt : Crt) :
    (∀ d, v ta.store crt.chain crt.name.dnsName NO_OCSP = Except.error d →
      TrustAnchors.certify v ta key crt = Except.error (InvalidCrt.mk d)) ∧
    (v ta.store crt.chain crt.name.dnsName NO_OCSP = Except.ok () →
      TrustAnchors.certify v ta key crt =
        Except.ok
          (CrtKey.mk crt.name crt.expiry
            (CertifiedKey.new crt.chain (SigningKey.mk key.pair)))) := by
  constructor
  · intro d h
    simp [TrustAnchors.certify, h]
  · intro h
    simp [TrustAnchors.certify, h]

/-- Fixture: a validator that rejects every chain with diagnostic 7. -/
def verifierFailW : ServerCertVerifier :=
  fun _ _ _ _ => Except.error (TLSError.WebPKIError 7)

/-- Fixture: a validator that accepts every chain. -/
def verifierOkW : ServerCertVerifier :=
  fun _ _ _ _ => Except.ok ()

/-- Fixture: a trust anchor set holding one root. -/
def taW : TrustAnchors := TrustAnchors.mk (RootCertStore.mk [Certificate.mk [48, 9]])

/-- Fixture: an unvalidated identity with a leaf and one intermediate. -/
def crtW : Crt := Crt.new nameW [48, 1] [[48, 2]] 1000

/-- Witness for C1: the failing validator diagnostic is wrapped, and the
accepting validator yields the bound certified key. -/
theorem certify_spec_witness :
    TrustAnchors.certify verifierFailW taW keyW crtW =
        Except.error (InvalidCrt.mk (TLSError.WebPKIError 7)) ∧
      TrustAnchors.certify verifierOkW taW keyW crtW =
        Except.ok
          (CrtKey.mk crtW.name crtW.expiry
            (CertifiedKey.new crtW.chain (SigningKey.mk keyW.pair))) :=
  ⟨(certify_spec verifierFailW taW keyW crtW).1 (TLSError.WebPKIError 7) rfl,
   (certify_spec verifierOkW taW keyW crtW).2 rfl⟩

/-- Claim C6: from_pem returns nothing exactly when zero anchors were
successfully added (in particular when the external parser fails or the
bundle is empty or fully invalid), returns the parsed anchor set
otherwise regardless of how many entries were skipped, and every
constructed TrustAnchors is non-empty. -/
theorem from_pem_spec (add_pem_file : AddPemFile) (s : String) :
    (add_pem_file s = none → TrustAnchors.from_pem add_pem_file s = none) ∧
    (∀ added skipped, add_pem_file s = some (added, skipped) →
      (added = [] → TrustAnchors.from_pem add_pem_file s = none) ∧
      (added ≠ [] →
        TrustAnchors.from_pem add_pem_file s =
          some (TrustAnchors.mk (RootCertStore.mk added))) ∧
      (TrustAnchors.from_pem add_pem_file s = none → added = [])) ∧
    (∀ ta, TrustAnchors.from_pem add_pem_file s = some ta →
      ta.store.roots ≠ []) := by
  refine ⟨?_, ?_, ?_⟩
  · intro h
    simp [TrustAnchors.from_pem, h]
  · intro added skipped h
    refine ⟨?_, ?_, ?_⟩
    · intro he
      simp [TrustAnchors.from_pem, h, he]
    · intro hne
      simp [TrustAnchors.from_pem, h, List.length_eq_zero, hne]
    · intro hnone
      by_contra hne
      simp [TrustAnchors.from_pem, h, List.length_eq_zero, hne] at hnone
  · intro ta hta
    cases hp : add_pem_file s with
    | none => simp [TrustAnchors.from_pem, hp] at hta
    | some p =>
      obtain ⟨added, skipped⟩ := p
      by_cases he : added.length = 0
      · simp [TrustAnchors.from_pem, hp, he] at hta
      · simp [TrustAnchors.from_pem, hp, he] at hta
        subst hta
        simpa [List.length_eq_zero] using he

/-- Fixture: an external PEM parser adding one root and skipping two
entries. -/
def pemOkW : AddPemFile := fun _ => some ([Certificate.mk [48, 9]], 2)

/-- Fixture: an external PEM parser adding nothing and skipping three
entries. -/
def pemEmptyW : AddPemFile := fun _ => some ([], 3)

/-- Witness for C6: one added root yields the anchor set even with skipped
entries, and zero added roots yields nothing. -/
theorem from_pem_spec_witness :
    TrustAnchors.from_pem pemOkW "bundle" =
        some (TrustAnchors.mk (RootCertStore.mk [Certificate.mk [48, 9]])) ∧
      TrustAnchors.from_pem pemEmptyW "bundle" = none :=
  ⟨((from_pem_spec pemOkW "bundle").2.1 [Certificate.mk [48, 9]] 2 rfl).2.1
      (by decide),
   ((from_pem_spec pemEmptyW "bundle").2.1 [] 3 rfl).1 rfl⟩

/-- Claim C7: for every hostname ending in the separator character the
construction fails with the invalid-name error for every DNS validator,
so before the validator is consulted; for every other syntactically valid
hostname, construction through the spec-modelled validator succeeds and
the string projection of the resulting Name equals the input hostname. -/
theorem from_sni_hostname_spec :
    (∀ (try_from : List Char → Except InvalidName DnsName)
      (hostname : List Char), hostname.getLast? = some '.' →
      Name.from_sni_hostname try_from hostname = Except.error InvalidName.mk) ∧
    (∀ hostname : List Char, hostname.getLast? ≠ some '.' →
      isValidHostname hostname = true →
      Name.from_sni_hostname dns_Name_try_from hostname =
          Except.ok (Name.mk (DnsName.mk (String.mk hostname))) ∧
        Name.as_ref (Name.mk (DnsName.mk (String.mk hostname))) =
          String.mk hostname) := by
  constructor
  · intro try_from hostname h
    simp [Name.from_sni_hostname, h]
  · intro hostname hdot hvalid
    constructor
    · simp [Name.from_sni_hostname, hdot, dns_Name_try_from, hvalid, Except.map]
    · rfl

/-- Witness for C7: the concrete hostname svc.example does not end in the
separator, is syntactically valid, and construction succeeds with the
projection equal to the input. -/
theorem from_sni_hostname_spec_witness :
    Name.from_sni_hostname dns_Name_try_from
        (String.toList "svc.example") =
      Except.ok (Name.mk (DnsName.mk (String.mk (String.toList "svc.example")))) :=
  ((from_sni_hostname_spec.2 (String.toList "svc.example") (by decide)
    (by decide))).1

end Identity

namespace Identity

/-- Claim C2: the client-role resolver returns the certified key exactly
when the offered schemes contain ECDSA_NISTP256_SHA256, its result does
not depend on the acceptable-issuer list, and whenever the offered
schemes exclude the supported scheme the server-role resolver returns
nothing for every webpki behaviour and every SNI value. -/
theorem resolve_client_spec (ck : CrtKey) (issuers issuers2 : List Bytes)
    (sigschemes : List SignatureScheme) :
    (CrtKey.resolve_client ck issuers sigschemes = some ck.key ↔
      sigschemes.contains SIGNATURE_ALG_RUSTLS_SCHEME = true) ∧
    CrtKey.resolve_client ck issuers sigschemes =
      CrtKey.resolve_client ck issuers2 sigschemes ∧
    (sigschemes.contains SIGNATURE_ALG_RUSTLS_SCHEME = false →
      ∀ (w : Webpki) (sni : Option DnsName),
        CrtKey.resolve_server w ck sni sigschemes = none) := by
  refine ⟨?_, rfl, ?_⟩
  · by_cases hc : sigschemes.contains SIGNATURE_ALG_RUSTLS_SCHEME <;>
      simp [CrtKey.resolve_client, CrtKey.resolve_, hc]
  · intro h w sni
    cases sni with
    | none => rfl
    | some sn =>
      cases hx : (w.from_input ck.leaf_der).bind
          (fun cert => w.verify_is_valid_for_dns_name cert sn) with
      | error e => simp [CrtKey.resolve_server, hx]
      | ok u =>
        simp [CrtKey.resolve_server, hx, CrtKey.resolve_]
        simpa using h

/-- Witness for C2: with the supported scheme offered the client resolver
yields the certified key, and with only ED25519 offered the server
resolver yields nothing even for the certified name. -/
theorem resolve_client_spec_witness :
    CrtKey.resolve_client ckW [] [SignatureScheme.ECDSA_NISTP256_SHA256] =
        some ckW.key ∧
      CrtKey.resolve_server webpkiW ckW (some (DnsName.mk "svc.example"))
        [SignatureScheme.ED25519] = none :=
  ⟨(resolve_client_spec ckW [] [[9]]
      [SignatureScheme.ECDSA_NISTP256_SHA256]).1.mpr rfl,
   (resolve_client_spec ckW [] [] [SignatureScheme.ED25519]).2.2 rfl webpkiW
      (some (DnsName.mk "svc.example"))⟩

/-- Claim C3: server-role resolution returns nothing without an SNI name,
returns nothing when the leaf certificate is not valid for the supplied
SNI name, and returns the certified key when the SNI name is the
identity certified name, the leaf parses and is valid for it, and the
supported scheme is offered. -/
theorem resolve_server_sni_spec (w : Webpki) (ck : CrtKey) (sn : DnsName)
    (sigschemes : List SignatureScheme) :
    CrtKey.resolve_server w ck none sigschemes = none ∧
    (∀ cert e, w.from_input ck.leaf_der = Except.ok cert →
      w.verify_is_valid_for_dns_name cert sn = Except.error e →
      CrtKey.resolve_server w ck (some sn) sigschemes = none) ∧
    (∀ cert, w.from_input ck.leaf_der = Except.ok cert →
      w.verify_is_valid_for_dns_name cert sn = Except.ok () →
      sn = ck.name.dnsName →
      sigschemes.contains SIGNATURE_ALG_RUSTLS_SCHEME = true →
      CrtKey.resolve_server w ck (some sn) sigschemes = some ck.key) := by
  refine ⟨rfl, ?_, ?_⟩
  · intro cert e h1 h2
    simp [CrtKey.resolve_server, h1, h2, Except.bind]
  · intro cert h1 h2 hsn hc
    simp [CrtKey.resolve_server, h1, h2, Except.bind, CrtKey.resolve_]
    simpa using hc

/-- Witness for C3: with the concrete webpki model, no SNI yields nothing,
the SNI other.example yields nothing, and the certified name svc.example
with the supported scheme yields the certified key. -/
theorem resolve_server_sni_spec_witness :
    CrtKey.resolve_server webpkiW ckW none
        [SignatureScheme.ECDSA_NISTP256_SHA256] = none ∧
      CrtKey.resolve_server webpkiW ckW (some (DnsName.mk "other.example"))
        [SignatureScheme.ECDSA_NISTP256_SHA256] = none ∧
      CrtKey.resolve_server webpkiW ckW (some (DnsName.mk "svc.example"))
        [SignatureScheme.ECDSA_NISTP256_SHA256] = some ckW.key :=
  ⟨(resolve_server_sni_spec webpkiW ckW (DnsName.mk "svc.example")
      [SignatureScheme.ECDSA_NISTP256_SHA256]).1,
   (resolve_server_sni_spec webpkiW ckW (DnsName.mk "other.example")
      [SignatureScheme.ECDSA_NISTP256_SHA256]).2.1 (EndEntityCert.mk [48, 1])
      WebpkiError.CertNotValidForName rfl rfl,
   (resolve_server_sni_spec webpkiW ckW (DnsName.mk "svc.example")
      [SignatureScheme.ECDSA_NISTP256_SHA256]).2.2 (EndEntityCert.mk [48, 1])
      rfl rfl rfl rfl⟩

/-- Claim C4: whenever the first entry of the stored chain fails to parse
as an end-entity certificate, server-role resolution with an SNI name
returns none for every scheme list, so the error branch fails closed and
never reaches the scheme check; when the chain is empty the parsed input
is the empty byte string. -/
theorem resolve_server_fails_closed (w : Webpki) (ck : CrtKey) (sn : DnsName)
    (sigschemes : List SignatureScheme) (e : WebpkiError)
    (h : w.from_input ck.leaf_der = Except.error e) :
    CrtKey.resolve_server w ck (some sn) sigschemes = none ∧
    (ck.key.cert = [] → ck.leaf_der = []) := by
  constructor
  · simp [CrtKey.resolve_server, h, Except.bind]
  · intro he
    simp [CrtKey.leaf_der, he]

/-- Witness for C4: the empty-chain certified key substitutes the empty
byte string, which the concrete webpki model fails to parse, so
resolution returns nothing even with the supported scheme offered. -/
theorem resolve_server_fails_closed_witness :
    CrtKey.resolve_server webpkiW ckEmptyW (some (DnsName.mk "svc.example"))
        [SignatureScheme.ECDSA_NISTP256_SHA256] = none ∧
      CrtKey.leaf_der ckEmptyW = [] :=
  ⟨(resolve_server_fails_closed webpkiW ckEmptyW (DnsName.mk "svc.example")
      [SignatureScheme.ECDSA_NISTP256_SHA256] WebpkiError.BadDER rfl).1,
   (resolve_server_fails_closed webpkiW ckEmptyW (DnsName.mk "svc.example")
      [SignatureScheme.ECDSA_NISTP256_SHA256] WebpkiError.BadDER rfl).2 rfl⟩

end Identity
